import Mathlib

/-!
Verification of the Auth component of daveyplate/supabase-auth-nextui.

The development shallowly embeds the state machine of `src/src/auth-ui.js`:
the component state held in React `useState` hooks, the `useEffect` callbacks
that synchronize that state, the `handleSubmit` dispatcher, and the
declarative validation and disabled conditions of the rendered inputs.
Line numbers in the comments refer to `src/src/auth-ui.js`.
-/

/-- Configuration props of the `Auth` component with their documented defaults
(lines 125-144), together with the two localization strings the submit handler
reads after merging with `defaultLocalization` (lines 95-97, 145). -/
structure AuthConfig where
  defaultRedirectTo : String := "/"
  redirectTo : Option String := none
  magicLink : Bool := true
  emailPassword : Bool := true
  startWithMagicLink : Bool := false
  isRoutingEnabled : Bool := true
  initialView : String := "login"
  baseUrl : String := ""
  email_magic_link_text : String := "Check your email for the magic link"
  email_reset_password_text : String := "Check your email for the password reset link"
  deriving Repr, DecidableEq

/-- JS string fallback `a || b`: the empty string and an absent value are falsy. -/
def strOrElse : Option String → String → String
  | none, b => b
  | some s, b => if s = "" then b else s

/-- `currentRedirectTo = redirectTo || router.query.redirect_to || defaultRedirectTo`
(line 168). `q` is the `redirect_to` query parameter of the router. -/
def currentRedirectTo (cfg : AuthConfig) (q : Option String) : String :=
  strOrElse cfg.redirectTo (strOrElse q cfg.defaultRedirectTo)

/-- Split a character list at every slash, keeping empty segments, as JS
`split("/")` does. -/
def splitSlash : List Char → List (List Char)
  | [] => [[]]
  | c :: cs =>
    match splitSlash cs with
    | [] => [[]]
    | seg :: rest => if c = '/' then [] :: seg :: rest else (c :: seg) :: rest

/-- First path segment `router.pathname.split("/")[1]` (line 148). -/
def pathSegment (pathname : String) : String :=
  String.mk ((splitSlash pathname.toList).getD 1 [])

/-- Component state: one field per `useState` hook (lines 148-158).  A session
is observed only through presence and identity, so it is an `Option String`. -/
structure AuthState where
  view : String
  session : Option String := none
  isLoading : Bool := false
  error : Option String := none
  successMessage : Option String := none
  isMagicLink : Bool
  email : String := ""
  password : String := ""
  isVisible : Bool := false
  deriving Repr, DecidableEq

/-- Initial hook values (lines 148-158): the view comes from the router path
when routing is enabled, and `isMagicLink` is `startWithMagicLink || !emailPassword`
(line 153). -/
def initState (cfg : AuthConfig) (pathname : String) : AuthState :=
  { view := if cfg.isRoutingEnabled then pathSegment pathname else cfg.initialView
    isMagicLink := cfg.startWithMagicLink || !cfg.emailPassword }

/-- Backend auth-client calls issued by the component. -/
inductive AuthCall where
  | signInWithOtp (email emailRedirectTo : String)
  | signInWithPassword (email password : String)
  | signUp (email password : String)
  | resetPasswordForEmail (email redirectTo : String)
  | updateUser (password : String)
  deriving Repr, DecidableEq

/-- Router calls issued by the component. -/
inductive NavCall where
  | replace (path : String)
  | push (path : String)
  deriving Repr, DecidableEq

/-- Continuation of the mount effect once `getSession()` resolves (lines 171-178):
fall back from `update-password` to `login` when the fetched session is absent,
then store the fetched session. -/
def mountSessionResolved (s : AuthState) (fetched : Option String) : AuthState :=
  { s with
    view := if s.view = "update-password" ∧ fetched = none then "login" else s.view
    session := fetched }

/-- Router calls of the effect with dependency `[session]` (lines 190-192). -/
def sessionEffectNavs (cfg : AuthConfig) (q : Option String) (s : AuthState) : List NavCall :=
  if s.session.isSome ∧ s.view ≠ "update-password" then
    [NavCall.replace (currentRedirectTo cfg q)]
  else []

/-- A session-change event from `onAuthStateChange` (lines 180-184): the new
session is stored, and the `[session]` effect re-runs exactly when the stored
value changed. -/
def onSessionChange (cfg : AuthConfig) (q : Option String) (s : AuthState)
    (ns : Option String) : AuthState × List NavCall :=
  let s1 : AuthState := { s with session := ns }
  (s1, if ns = s.session then [] else sessionEffectNavs cfg q s1)

/-- State part of the effect with dependency `[view]` (lines 202-213): leave
magic-link mode outside `login`, clear both banners, hide the password when
entering `signup`. -/
def viewEffectState (s : AuthState) : AuthState :=
  { s with
    isMagicLink := if s.view = "login" then s.isMagicLink else false
    error := none
    successMessage := none
    isVisible := if s.view = "signup" then false else s.isVisible }

/-- Router calls of the effect with dependency `[view]` (lines 205-207). -/
def viewEffectNavs (cfg : AuthConfig) (pathname : String) (s : AuthState) : List NavCall :=
  if cfg.isRoutingEnabled ∧ s.view ≠ pathSegment pathname then
    [NavCall.push ("/" ++ s.view)]
  else []

/-- Effect with dependency `[isMagicLink]` (lines 215-219): clear the password
draft and both banners. -/
def magicLinkEffect (s : AuthState) : AuthState :=
  { s with password := "", error := none, successMessage := none }

/-- Effect with dependency `[magicLink, startWithMagicLink, emailPassword]`
(lines 221-230): force magic-link mode on when requested at startup or when
password login is off, then force it off when magic link is disabled. -/
def configEffect (cfg : AuthConfig) (s : AuthState) : AuthState :=
  { s with isMagicLink :=
      if !cfg.magicLink then false
      else if cfg.startWithMagicLink || !cfg.emailPassword then true
      else s.isMagicLink }

/-- `setView v` followed by its effects: the `[view]` effect, and the
`[isMagicLink]` effect when the mode value changed.  React skips both the
update and the effects when the value is unchanged. -/
def setViewStep (s : AuthState) (v : String) : AuthState :=
  if v = s.view then s
  else
    let s1 := viewEffectState { s with view := v }
    if s1.isMagicLink = s.isMagicLink then s1 else magicLinkEffect s1

/-- `setIsMagicLink m` (the provider buttons, lines 460-463 and 483-486)
followed by the `[isMagicLink]` effect when the value changed. -/
def setModeStep (s : AuthState) (m : Bool) : AuthState :=
  if m = s.isMagicLink then s else magicLinkEffect { s with isMagicLink := m }

/-- Result of a submission: the settled state, the backend calls and router
calls issued, and whether `setIsLoading(true)` was executed. -/
structure SubmitResult where
  state : AuthState
  calls : List AuthCall
  navs : List NavCall
  setLoadingTrue : Bool
  deriving Repr, DecidableEq

/-- State right after the opening of `handleSubmit` (lines 236-238): both
banners cleared and the loading flag raised. -/
def submitMidState (s : AuthState) : AuthState :=
  { s with error := none, successMessage := none, isLoading := true }

/-- `handleSubmit` (lines 233-281).  `backendError` is the error returned by
the one backend call the dispatched branch makes.  The loading flag is lowered
at the end of the handler (line 280). -/
def handleSubmit (cfg : AuthConfig) (q : Option String) (s : AuthState)
    (backendError : Option String) : SubmitResult :=
  let s1 := submitMidState s
  let r : SubmitResult :=
    if s1.view = "login" then
      if s1.isMagicLink then
        let base : AuthState := { s1 with error := backendError }
        { state :=
            if backendError = none then
              { base with successMessage := some cfg.email_magic_link_text, email := "" }
            else base
          calls := [AuthCall.signInWithOtp s1.email (cfg.baseUrl ++ "/" ++ currentRedirectTo cfg q)]
          navs := []
          setLoadingTrue := true }
      else
        { state := { s1 with error := backendError }
          calls := [AuthCall.signInWithPassword s1.email s1.password]
          navs := []
          setLoadingTrue := true }
    else if s1.view = "signup" then
      { state := { s1 with error := backendError }
        calls := [AuthCall.signUp s1.email s1.password]
        navs := []
        setLoadingTrue := true }
    else if s1.view = "forgot-password" then
      let base : AuthState := { s1 with error := backendError }
      { state :=
          if backendError = none then
            { base with successMessage := some cfg.email_reset_password_text, email := "" }
          else base
        calls := [AuthCall.resetPasswordForEmail s1.email (cfg.baseUrl ++ "/update-password")]
        navs := []
        setLoadingTrue := true }
    else if s1.view = "update-password" then
      { state := { s1 with error := backendError }
        calls := [AuthCall.updateUser s1.password]
        navs := if backendError = none then [NavCall.replace "/"] else []
        setLoadingTrue := true }
    else
      { state := s1, calls := [], navs := [], setLoadingTrue := true }
  { state := { r.state with isLoading := false }
    calls := r.calls
    navs := r.navs
    setLoadingTrue := r.setLoadingTrue }

/-- `isDisabled` of the email input (line 340). -/
def emailInputDisabled (s : AuthState) : Bool :=
  s.view == "update-password"

/-- `isDisabled` of the password input (line 350). -/
def passwordInputDisabled (cfg : AuthConfig) (s : AuthState) : Bool :=
  !cfg.emailPassword || s.isMagicLink || s.view == "update-password"

/-- JS `value.includes(c)` for a one-character needle: the string holds the
character. -/
def strHasChar (s : String) (c : Char) : Bool := s.data.contains c

/-- `validate` of the email input (lines 336-338): valid iff the value holds
an at sign. -/
def emailValueValid (value : String) : Bool := strHasChar value '@'

/-- `validate` of the password input (lines 347-349): invalid iff empty. -/
def passwordValueValid (value : String) : Bool := value.length != 0

/-- Rendered value of the password input, `isMagicLink ? "" : password`
(line 361). -/
def displayedPassword (s : AuthState) : String :=
  if s.isMagicLink then "" else s.password

/-- Visibility condition of the password input (line 352). -/
def passwordFieldVisible (cfg : AuthConfig) (s : AuthState) : Bool :=
  cfg.emailPassword && !s.isMagicLink &&
    (s.view == "login" || s.view == "signup" || s.view == "update-password")

/-- Native form validation of the `Form` with `validationBehavior="native"`
(lines 303-310): the submission is blocked iff a participating input (one that
is not disabled) fails its `validate` condition. -/
def submitBlocked (cfg : AuthConfig) (s : AuthState) : Bool :=
  (!emailInputDisabled s && !emailValueValid s.email) ||
  (!passwordInputDisabled cfg s && !passwordValueValid (displayedPassword s))

/-- The full submission pipeline: the native validation gate, then
`handleSubmit`.  A blocked submission leaves the state untouched and issues
nothing. -/
def submitPipeline (cfg : AuthConfig) (q : Option String) (s : AuthState)
    (backendError : Option String) : SubmitResult :=
  if submitBlocked cfg s then
    { state := s, calls := [], navs := [], setLoadingTrue := false }
  else handleSubmit cfg q s backendError

/-- `isDisabled` of the submit button (line 400). -/
def submitButtonDisabled (s : AuthState) : Bool :=
  s.session.isSome && s.view != "update-password"

/-- Events the component reacts to, each applied together with the effects it
triggers. -/
inductive AuthEvent where
  | setViewE (v : String)
  | setModeE (m : Bool)
  | submitE (backendError : Option String)
  | sessionE (ns : Option String)
  | mountFetchE (fetched : Option String)
  | emailEditE (v : String)
  | passwordEditE (v : String)
  | pathE (pathname : String)
  deriving Repr

/-- One event step on the component state. -/
def stepEvent (cfg : AuthConfig) (q : Option String) (s : AuthState) :
    AuthEvent → AuthState
  | .setViewE v => setViewStep s v
  | .setModeE m => setModeStep s m
  | .submitE e => (submitPipeline cfg q s e).state
  | .sessionE ns => (onSessionChange cfg q s ns).1
  | .mountFetchE fetched => mountSessionResolved s fetched
  | .emailEditE v => { s with email := v }
  | .passwordEditE v => { s with password := v }
  | .pathE p => if cfg.isRoutingEnabled ∧ s.view ≠ pathSegment p
      then setViewStep s (pathSegment p) else s

/-- Run a list of events. -/
def runEvents (cfg : AuthConfig) (q : Option String) (s : AuthState) :
    List AuthEvent → AuthState
  | [] => s
  | e :: es => runEvents cfg q (stepEvent cfg q s e) es

/-- At most one of the two banners is populated. -/
def bannerInvariant (s : AuthState) : Prop :=
  s.error = none ∨ s.successMessage = none

/-- Default configuration. -/
def cfgDefault : AuthConfig := {}

/-- Configuration with magic link disabled but requested at startup. -/
def cfgMagicOffStartOn : AuthConfig := { magicLink := false, startWithMagicLink := true }

/-- Configuration with a non-root default redirect target. -/
def cfgDash : AuthConfig := { defaultRedirectTo := "/dashboard" }

/-- Configuration with another non-root default redirect target. -/
def cfgHome : AuthConfig := { defaultRedirectTo := "/home" }

/-- A login-view state in password mode. -/
def stateLoginPw : AuthState := { view := "login", isMagicLink := false }

/-- A login-view state in magic-link mode with a filled email draft. -/
def stateLoginMagic : AuthState :=
  { view := "login", isMagicLink := true, email := "user@example.com" }

/-- An update-password state with an empty password draft. -/
def stateUpdateEmpty : AuthState := { view := "update-password", isMagicLink := false }

/-- An update-password state with a filled password draft. -/
def stateUpdateFilled : AuthState :=
  { view := "update-password", isMagicLink := false, password := "newpass123" }

/-- A forgot-password state with a filled email draft. -/
def stateForgot : AuthState :=
  { view := "forgot-password", isMagicLink := false, email := "user@example.com" }

/-- A login-view state with a bad email draft. -/
def stateBadEmail : AuthState :=
  { view := "login", isMagicLink := false, email := "bademail" }

/-- A login-view state holding an active session. -/
def stateWithSession : AuthState :=
  { view := "login", isMagicLink := false, session := some "sess1" }

/-- C1 counterexample: under `{magicLink: false, startWithMagicLink: true}` the
initializer of line 153 is `startWithMagicLink || !emailPassword`, which
ignores `magicLink`, so the initial AuthMode is MagicLink, not
PasswordCredential as the claim states. -/
theorem c1_counterexample :
    (initState cfgMagicOffStartOn "/login").isMagicLink = true := by decide

/-- Claim C1 (amended): under `magicLink=false` the initial AuthMode is
MagicLink whenever `startWithMagicLink=true`; the configuration effect then
forces AuthMode to PasswordCredential, so every state after that effect runs
observes PasswordCredential. -/
theorem c1_amended (cfg : AuthConfig) (s : AuthState) (h : cfg.magicLink = false) :
    (configEffect cfg s).isMagicLink = false ∧
    (cfg.startWithMagicLink = true → ∀ p, (initState cfg p).isMagicLink = true) := by
  constructor
  · simp [configEffect, h]
  · intro hs p
    simp [initState, hs]

/-- C1 witness: the amended claim at the concrete configuration of the claim. -/
theorem c1_witness :
    (configEffect cfgMagicOffStartOn stateLoginPw).isMagicLink = false ∧
    (cfgMagicOffStartOn.startWithMagicLink = true →
      ∀ p, (initState cfgMagicOffStartOn p).isMagicLink = true) :=
  c1_amended cfgMagicOffStartOn stateLoginPw rfl

/-- C3 counterexample: with routing enabled and initial path
`/update-password`, the very first rendered state has View = UpdatePassword and
no session, refuting that no render ever observes that pair and that the
fallback is synchronous. -/
theorem c3_counterexample :
    (initState cfgDefault "/update-password").view = "update-password" ∧
    (initState cfgDefault "/update-password").session = none := by decide

/-- Claim C3 (amended): the fallback out of UpdatePassword runs only when the
mount-time session fetch resolves: if at that point View = UpdatePassword and
the fetched session is absent, View becomes Login; when a session is fetched
the view is untouched.  Renders before the fetch resolves can observe
UpdatePassword with an absent session. -/
theorem c3_amended (s : AuthState) (h : s.view = "update-password") :
    (mountSessionResolved s none).view = "login" ∧
    (mountSessionResolved s none).session = none ∧
    (∀ sess, (mountSessionResolved s (some sess)).view = s.view) := by
  refine ⟨?_, rfl, ?_⟩
  · simp [mountSessionResolved, h]
  · intro sess
    simp [mountSessionResolved]

/-- C3 witness: the amended claim at a concrete update-password state. -/
theorem c3_witness :
    (mountSessionResolved stateUpdateEmpty none).view = "login" ∧
    (mountSessionResolved stateUpdateEmpty none).session = none ∧
    (∀ sess, (mountSessionResolved stateUpdateEmpty (some sess)).view =
      stateUpdateEmpty.view) :=
  c3_amended stateUpdateEmpty rfl

/-- C2 counterexample: at View = UpdatePassword with an empty password the
claim requires an input-level error and no backend call, but both inputs are
disabled there (lines 340, 350), so nothing blocks the submission: the handler
runs, raises the loading flag and calls `updateUser` with the empty password. -/
theorem c2_counterexample :
    submitBlocked cfgDefault stateUpdateEmpty = false ∧
    (submitPipeline cfgDefault none stateUpdateEmpty none).calls =
      [AuthCall.updateUser ""] ∧
    (submitPipeline cfgDefault none stateUpdateEmpty none).setLoadingTrue = true := by
  decide

/-- Claim C2 (amended): local validation blocks a submission exactly while the
failing input participates: email lacking an at sign while the email input is
enabled (View different from UpdatePassword), or an empty password while the
password input is enabled (email+password on, AuthMode not MagicLink, View in
Login or Signup).  In those cases no backend call is made, the loading flag is
never raised, and the state is untouched; at UpdatePassword both inputs are
excluded from validation. -/
theorem c2_amended (cfg : AuthConfig) (q : Option String) (s : AuthState)
    (e : Option String)
    (h : (s.view ≠ "update-password" ∧ strHasChar s.email '@' = false) ∨
         (cfg.emailPassword = true ∧ s.isMagicLink = false ∧
          (s.view = "login" ∨ s.view = "signup") ∧ s.password = "")) :
    (submitPipeline cfg q s e).calls = [] ∧
    (submitPipeline cfg q s e).setLoadingTrue = false ∧
    (submitPipeline cfg q s e).state = s := by
  have hb : submitBlocked cfg s = true := by
    rcases h with ⟨hv, he⟩ | ⟨hep, hm, hview, hp⟩
    · simp [submitBlocked, emailInputDisabled, emailValueValid, he, hv]
    · have hne : s.view ≠ "update-password" := by
        rcases hview with h1 | h1 <;> simp [h1]
      simp [submitBlocked, passwordInputDisabled, passwordValueValid,
        displayedPassword, hep, hm, hne, hp]
  simp [submitPipeline, hb]

/-- C2 witness: the amended claim at a concrete login state with a bad email. -/
theorem c2_witness :
    (submitPipeline cfgDefault none stateBadEmail none).calls = [] ∧
    (submitPipeline cfgDefault none stateBadEmail none).setLoadingTrue = false ∧
    (submitPipeline cfgDefault none stateBadEmail none).state = stateBadEmail :=
  c2_amended cfgDefault none stateBadEmail none (Or.inl (by decide))

/-- Claim C4: a session change to a present session (a transition from absent
to present, or an identity change) triggers exactly one `replace` to the
resolved redirect target when View is not UpdatePassword, and none when View is
UpdatePassword. -/
theorem c4_redirect (cfg : AuthConfig) (q : Option String) (s : AuthState)
    (ns : Option String) (h1 : ns ≠ s.session) (h2 : ns.isSome = true) :
    (s.view ≠ "update-password" →
      (onSessionChange cfg q s ns).2 = [NavCall.replace (currentRedirectTo cfg q)]) ∧
    (s.view = "update-password" → (onSessionChange cfg q s ns).2 = []) := by
  constructor
  · intro hv
    simp [onSessionChange, sessionEffectNavs, h1, h2, hv]
  · intro hv
    simp [onSessionChange, sessionEffectNavs, h1, hv]

/-- C4 witness: the claim at a login state gaining its first session. -/
theorem c4_witness :
    (stateLoginPw.view ≠ "update-password" →
      (onSessionChange cfgDefault none stateLoginPw (some "sess1")).2 =
        [NavCall.replace (currentRedirectTo cfgDefault none)]) ∧
    (stateLoginPw.view = "update-password" →
      (onSessionChange cfgDefault none stateLoginPw (some "sess1")).2 = []) :=
  c4_redirect cfgDefault none stateLoginPw (some "sess1") (by decide) rfl

/-- Claim C5: submitting at View = Login in magic-link mode with a backend call
returning no error ends with the loading flag lowered, no error, the configured
magic-link message as the success banner, and an emptied email draft. -/
theorem c5_magic_link_success (cfg : AuthConfig) (q : Option String)
    (s : AuthState) (h1 : s.view = "login") (h2 : s.isMagicLink = true) :
    (handleSubmit cfg q s none).state.isLoading = false ∧
    (handleSubmit cfg q s none).state.error = none ∧
    (handleSubmit cfg q s none).state.successMessage =
      some cfg.email_magic_link_text ∧
    (handleSubmit cfg q s none).state.email = "" := by
  simp [handleSubmit, submitMidState, h1, h2]

/-- C5 witness: the claim at a concrete magic-link login state. -/
theorem c5_witness :
    (handleSubmit cfgDefault none stateLoginMagic none).state.isLoading = false ∧
    (handleSubmit cfgDefault none stateLoginMagic none).state.error = none ∧
    (handleSubmit cfgDefault none stateLoginMagic none).state.successMessage =
      some cfgDefault.email_magic_link_text ∧
    (handleSubmit cfgDefault none stateLoginMagic none).state.email = "" :=
  c5_magic_link_success cfgDefault none stateLoginMagic rfl rfl

/-- Helper: the state produced by `handleSubmit` never holds both banners. -/
lemma handleSubmit_banner (cfg : AuthConfig) (q : Option String) (s : AuthState)
    (e : Option String) : bannerInvariant (handleSubmit cfg q s e).state := by
  simp only [handleSubmit, submitMidState, bannerInvariant]
  split_ifs <;> simp_all

/-- Helper: a view change settles with both banners cleared. -/
lemma setViewStep_banner (s : AuthState) (v : String) (hs : bannerInvariant s) :
    bannerInvariant (setViewStep s v) := by
  simp only [setViewStep]
  split_ifs
  · exact hs
  · exact Or.inl rfl
  · exact Or.inl rfl

/-- Helper: every event step preserves the banner invariant. -/
lemma stepEvent_banner (cfg : AuthConfig) (q : Option String) (s : AuthState)
    (ev : AuthEvent) (hs : bannerInvariant s) :
    bannerInvariant (stepEvent cfg q s ev) := by
  cases ev with
  | setViewE v => exact setViewStep_banner s v hs
  | setModeE m =>
      simp only [stepEvent, setModeStep]
      split_ifs
      · exact hs
      · exact Or.inl rfl
  | submitE e =>
      simp only [stepEvent, submitPipeline]
      split_ifs
      · exact hs
      · exact handleSubmit_banner cfg q s e
  | sessionE ns => exact hs
  | mountFetchE fetched => exact hs
  | emailEditE v => exact hs
  | passwordEditE v => exact hs
  | pathE p =>
      simp only [stepEvent]
      split_ifs
      · exact setViewStep_banner s (pathSegment p) hs
      · exact hs

/-- Helper: running any event list preserves the banner invariant. -/
lemma runEvents_banner (cfg : AuthConfig) (q : Option String)
    (evs : List AuthEvent) :
    ∀ s : AuthState, bannerInvariant s → bannerInvariant (runEvents cfg q s evs) := by
  induction evs with
  | nil => intro s hs; exact hs
  | cons e es ih =>
      intro s hs
      exact ih (stepEvent cfg q s e) (stepEvent_banner cfg q s e hs)

/-- Claim C6: every state reachable from mount by view changes, mode changes,
path changes, session events and submissions has at most one populated banner,
and the state at the opening of every submission has both banners cleared. -/
theorem c6_banner_invariant :
    (∀ (cfg : AuthConfig) (q : Option String) (p : String) (evs : List AuthEvent),
      bannerInvariant (runEvents cfg q (initState cfg p) evs)) ∧
    (∀ s : AuthState,
      (submitMidState s).error = none ∧ (submitMidState s).successMessage = none) :=
  ⟨fun cfg q p evs => runEvents_banner cfg q evs (initState cfg p) (Or.inl rfl),
   fun _ => ⟨rfl, rfl⟩⟩

/-- Claim C7: switching AuthMode to MagicLink runs the `[isMagicLink]` effect,
so the password draft reads back empty; moreover while AuthMode = MagicLink the
password input is never visible and its rendered value is the empty string. -/
theorem c7_password_cleared (cfg : AuthConfig) (s : AuthState)
    (h : s.isMagicLink = false) :
    (setModeStep s true).password = "" ∧
    (∀ s2 : AuthState, s2.isMagicLink = true →
      passwordFieldVisible cfg s2 = false ∧ displayedPassword s2 = "") := by
  constructor
  · simp [setModeStep, h, magicLinkEffect]
  · intro s2 h2
    constructor
    · simp [passwordFieldVisible, h2]
    · simp [displayedPassword, h2]

/-- C7 witness: the claim at a concrete password-mode login state. -/
theorem c7_witness :
    (setModeStep stateLoginPw true).password = "" ∧
    (∀ s2 : AuthState, s2.isMagicLink = true →
      passwordFieldVisible cfgDefault s2 = false ∧ displayedPassword s2 = "") :=
  c7_password_cleared cfgDefault stateLoginPw rfl

/-- C8 counterexample: with default redirect target `/dashboard` the reset
request of a ForgotPassword submission carries the callback URL
`/update-password`, which holds no query delimiter at all, so the resolved
RedirectTarget is not carried on it. -/
theorem c8_counterexample :
    (handleSubmit cfgDash none stateForgot none).calls =
      [AuthCall.resetPasswordForEmail "user@example.com" "/update-password"] ∧
    currentRedirectTo cfgDash none = "/dashboard" ∧
    strHasChar "/update-password" '?' = false := by decide

/-- Claim C8 (amended): every ForgotPassword submission issues the
password-reset request with the callback URL `baseUrl ++ /update-password`,
pointing at the UpdatePassword view but carrying no query parameter with the
RedirectTarget. -/
theorem c8_amended (cfg : AuthConfig) (q : Option String) (s : AuthState)
    (e : Option String) (h : s.view = "forgot-password") :
    (handleSubmit cfg q s e).calls =
      [AuthCall.resetPasswordForEmail s.email (cfg.baseUrl ++ "/update-password")] := by
  simp [handleSubmit, submitMidState, h]

/-- C8 witness: the amended claim at a concrete forgot-password state. -/
theorem c8_witness :
    (handleSubmit cfgDash none stateForgot none).calls =
      [AuthCall.resetPasswordForEmail stateForgot.email
        (cfgDash.baseUrl ++ "/update-password")] :=
  c8_amended cfgDash none stateForgot none rfl

/-- C9 counterexample: with `defaultRedirectTo = "/home"` a successful
UpdatePassword submission navigates to the fixed root path `/`, not to the
configured default redirect target `/home`. -/
theorem c9_counterexample :
    (handleSubmit cfgHome none stateUpdateFilled none).navs = [NavCall.replace "/"] ∧
    cfgHome.defaultRedirectTo = "/home" ∧
    currentRedirectTo cfgHome none = "/home" ∧
    ("/" : String) ≠ "/home" := by decide

/-- Claim C9 (amended): every UpdatePassword submission whose backend call
returns no error immediately issues exactly one navigation, to the fixed root
path `/` (the default value of the default redirect target, ignoring any
configured value), shows no success message, and ends with the loading flag
lowered. -/
theorem c9_amended (cfg : AuthConfig) (q : Option String) (s : AuthState)
    (h : s.view = "update-password") :
    (handleSubmit cfg q s none).navs = [NavCall.replace "/"] ∧
    (handleSubmit cfg q s none).state.successMessage = none ∧
    (handleSubmit cfg q s none).state.isLoading = false := by
  simp [handleSubmit, submitMidState, h]

/-- C9 witness: the amended claim at a concrete update-password state. -/
theorem c9_witness :
    (handleSubmit cfgDefault none stateUpdateFilled none).navs = [NavCall.replace "/"] ∧
    (handleSubmit cfgDefault none stateUpdateFilled none).state.successMessage = none ∧
    (handleSubmit cfgDefault none stateUpdateFilled none).state.isLoading = false :=
  c9_amended cfgDefault none stateUpdateFilled rfl

/-- Claim C10: while a session is present the submit button is disabled on
every view except UpdatePassword, and it is enabled exactly on UpdatePassword. -/
theorem c10_submit_disabled (s : AuthState) (x : String) (h : s.session = some x) :
    (s.view ≠ "update-password" → submitButtonDisabled s = true) ∧
    (submitButtonDisabled s = false ↔ s.view = "update-password") := by
  constructor
  · intro hv
    simp [submitButtonDisabled, h, hv]
  · simp [submitButtonDisabled, h]

/-- C10 witness: the claim at a concrete login state holding a session. -/
theorem c10_witness :
    (stateWithSession.view ≠ "update-password" →
      submitButtonDisabled stateWithSession = true) ∧
    (submitButtonDisabled stateWithSession = false ↔
      stateWithSession.view = "update-password") :=
  c10_submit_disabled stateWithSession "sess1" rfl
